import Mathlib

/-!
Verification of the translation / audio microservices of the distributed
chat system (PDC lab exam repository).

The embedding follows the JavaScript sources:
  - translation-service/server.js : dictionary data, translateText, the
    TranslateText / TranslateBatch / GetSupportedLanguages handlers;
  - audio-service/server.js : generateTranslatedAudio and the ProcessAudio
    handler;
  - client/src/services/api.js : the custom btoa base64 encoder.

Conventions of the embedding:
  - JS strings are Lean Strings; JS object literals used as dictionaries are
    association lists, looked up with a truthiness-aware lookup (empty string
    values are falsy in JS);
  - binary buffers are lists of byte values (Nat, each below 256);
  - wall-clock fields (Date.now differences) are ambient real time and are
    omitted from the embedded responses; no claim concerns them;
  - a JS try/catch around a computation is modelled by parameterising the
    handler over an Except-valued computation.
-/

/-- Lowercasing of a string, embedding the JS toLowerCase call of the source
(character-wise; exact on the ASCII range, which covers every key the source
normalises against — the non-ASCII dictionary entries are already lowercase). -/
def jsToLower (s : String) : String :=
  ⟨s.data.map Char.toLower⟩

/-- Uppercasing of a string, embedding the JS toUpperCase call of the source. -/
def jsToUpper (s : String) : String :=
  ⟨s.data.map Char.toUpper⟩

/-- Removal of leading and trailing whitespace from a character list. -/
def trimChars (l : List Char) : List Char :=
  ((l.dropWhile Char.isWhitespace).reverse.dropWhile Char.isWhitespace).reverse

/-- Trim of a string, embedding the JS trim call of the source. -/
def jsTrim (s : String) : String :=
  ⟨trimChars s.data⟩

/-- Split of a character list at every single space character, embedding the JS
split with separator " ": consecutive spaces yield empty pieces, and the empty
list yields one empty piece, as in JS. -/
def splitSpace : List Char → List (List Char)
  | [] => [[]]
  | c :: rest =>
    let pieces := splitSpace rest
    if c = ' ' then [] :: pieces
    else (c :: pieces.headD []) :: pieces.tail

/-- The word list of a string under the JS split on a single space. -/
def jsSplitSpace (s : String) : List String :=
  (splitSpace s.data).map fun piece => ⟨piece⟩

/-- Space-joining of a list of strings, embedding the JS join with separator
" ". -/
def joinSpace : List String → String
  | [] => ""
  | [w] => w
  | w :: rest => w ++ " " ++ joinSpace rest

/-- Lookup in a JS object literal used as a dictionary, embedding the truthy
access pattern of the source: a key whose value is the empty string behaves
like an absent key (empty strings are falsy in JS). No value of the tables
below is empty, so this coincides with plain lookup on the actual data. -/
def lookupEntry (m : List (String × String)) (k : String) : Option String :=
  match m with
  | [] => none
  | (k0, v) :: rest =>
    if k0 = k then (if v = "" then none else some v)
    else lookupEntry rest k

/-- The en-es table of TRANSLATIONS in translation-service/server.js. -/
def enEs : List (String × String) :=
  [("hello", "hola"), ("goodbye", "adiós"), ("good morning", "buenos días"),
   ("good night", "buenas noches"), ("how are you", "cómo estás"),
   ("thank you", "gracias"), ("please", "por favor"), ("yes", "sí"),
   ("no", "no"), ("welcome", "bienvenido"), ("friend", "amigo"),
   ("love", "amor"), ("water", "agua"), ("food", "comida"), ("help", "ayuda"),
   ("i am fine", "estoy bien"), ("what is your name", "cuál es tu nombre"),
   ("my name is", "mi nombre es"), ("nice to meet you", "mucho gusto"),
   ("see you later", "hasta luego")]

/-- The en-fr table of TRANSLATIONS in translation-service/server.js. -/
def enFr : List (String × String) :=
  [("hello", "bonjour"), ("goodbye", "au revoir"), ("good morning", "bonjour"),
   ("good night", "bonne nuit"), ("how are you", "comment allez-vous"),
   ("thank you", "merci"), ("please", "s\x27il vous plaît"), ("yes", "oui"),
   ("no", "non"), ("welcome", "bienvenue"), ("friend", "ami"),
   ("love", "amour"), ("water", "eau"), ("food", "nourriture"),
   ("help", "aide"), ("i am fine", "je vais bien"),
   ("what is your name", "comment vous appelez-vous"),
   ("my name is", "je m\x27appelle"), ("nice to meet you", "enchanté"),
   ("see you later", "à plus tard")]

/-- The en-de table of TRANSLATIONS in translation-service/server.js. -/
def enDe : List (String × String) :=
  [("hello", "hallo"), ("goodbye", "auf wiedersehen"),
   ("good morning", "guten morgen"), ("good night", "gute nacht"),
   ("how are you", "wie geht es dir"), ("thank you", "danke"),
   ("please", "bitte"), ("yes", "ja"), ("no", "nein"),
   ("welcome", "willkommen"), ("friend", "freund"), ("love", "liebe"),
   ("water", "wasser"), ("food", "essen"), ("help", "hilfe"),
   ("i am fine", "mir geht es gut"), ("what is your name", "wie heißt du"),
   ("my name is", "ich heiße"), ("nice to meet you", "freut mich"),
   ("see you later", "bis später")]

/-- The en-ur table of TRANSLATIONS in translation-service/server.js. -/
def enUr : List (String × String) :=
  [("hello", "السلام علیکم"), ("goodbye", "خدا حافظ"),
   ("good morning", "صبح بخیر"), ("good night", "شب بخیر"),
   ("how are you", "آپ کیسے ہیں"), ("thank you", "شکریہ"),
   ("please", "براہ کرم"), ("yes", "ہاں"), ("no", "نہیں"),
   ("welcome", "خوش آمدید"), ("friend", "دوست"), ("love", "محبت"),
   ("water", "پانی"), ("food", "کھانا"), ("help", "مدد"),
   ("i am fine", "میں ٹھیک ہوں"), ("what is your name", "آپ کا نام کیا ہے"),
   ("my name is", "میرا نام ہے"), ("nice to meet you", "آپ سے مل کر خوشی ہوئی"),
   ("see you later", "پھر ملیں گے")]

/-- The es-en table of TRANSLATIONS in translation-service/server.js. -/
def esEn : List (String × String) :=
  [("hola", "hello"), ("adiós", "goodbye"), ("buenos días", "good morning"),
   ("buenas noches", "good night"), ("cómo estás", "how are you"),
   ("gracias", "thank you"), ("por favor", "please"), ("sí", "yes"),
   ("no", "no"), ("bienvenido", "welcome")]

/-- The fr-en table of TRANSLATIONS in translation-service/server.js. -/
def frEn : List (String × String) :=
  [("bonjour", "hello"), ("au revoir", "goodbye"), ("bonne nuit", "good night"),
   ("merci", "thank you"), ("oui", "yes"), ("non", "no"),
   ("bienvenue", "welcome")]

/-- TRANSLATIONS keyed by the "source-target" string; an unknown key yields the
empty dictionary, embedding the fallback in translateText. -/
def TRANSLATIONS (key : String) : List (String × String) :=
  if key = "en-es" then enEs
  else if key = "en-fr" then enFr
  else if key = "en-de" then enDe
  else if key = "en-ur" then enUr
  else if key = "es-en" then esEn
  else if key = "fr-en" then frEn
  else []

/-- translateText from translation-service/server.js, without the wall-clock
processingTime field. jsToLower and jsTrim embed the normalisation step;
jsSplitSpace and joinSpace embed split and join on a single space; getD
embeds the `or word` fallback for words absent from the dictionary. -/
def translateText (text sourceLang targetLang : String) : String :=
  if sourceLang = targetLang then
    text
  else
    let mappings := TRANSLATIONS (sourceLang ++ "-" ++ targetLang)
    let normalizedText := jsTrim (jsToLower text)
    match lookupEntry mappings normalizedText with
    | some v => v
    | none =>
      let words := jsSplitSpace normalizedText
      let translatedWords := words.map (fun word => (lookupEntry mappings word).getD word)
      let result := joinSpace translatedWords
      if result = normalizedText then "[" ++ jsToUpper targetLang ++ "] " ++ text
      else result

/-- A TranslateText gRPC request, fields as in translation.proto. -/
structure TranslateRequest where
  user_id : String
  text : String
  source_language : String
  target_language : String
  timestamp : Nat
deriving Repr, DecidableEq

/-- A TranslateText gRPC response, fields as in the handlers of
translation-service/server.js; the wall-clock processing_time_ms field is
omitted. -/
structure TranslateResponse where
  original_text : String
  translated_text : String
  source_language : String
  target_language : String
  success : Bool
  error_message : String
deriving Repr, DecidableEq

/-- The body of handleTranslateText, parameterised over the possibly-throwing
translate computation: the try branch builds the success response from the
returned value, the catch branch builds a success=false response carrying the
thrown message. -/
def handleTranslateTextWith (request : TranslateRequest)
    (run : TranslateRequest → Except String String) : TranslateResponse :=
  match run request with
  | Except.ok translated =>
    { original_text := request.text
      translated_text := translated
      source_language := request.source_language
      target_language := request.target_language
      success := true
      error_message := "" }
  | Except.error msg =>
    { original_text := request.text
      translated_text := ""
      source_language := request.source_language
      target_language := request.target_language
      success := false
      error_message := msg }

/-- handleTranslateText from translation-service/server.js: the translate
computation is translateText, which is total. -/
def handleTranslateText (request : TranslateRequest) : TranslateResponse :=
  handleTranslateTextWith request
    (fun r => Except.ok (translateText r.text r.source_language r.target_language))

/-- handleTranslateBatch from translation-service/server.js: maps translateText
over the request list, building one success response per request. -/
def handleTranslateBatch (requests : List TranslateRequest) : List TranslateResponse :=
  requests.map fun req =>
    { original_text := req.text
      translated_text := translateText req.text req.source_language req.target_language
      source_language := req.source_language
      target_language := req.target_language
      success := true
      error_message := "" }

/-- One entry of SUPPORTED_LANGUAGES (named Language in the source; renamed to avoid a clash with a library name). -/
structure LanguageEntry where
  code : String
  name : String
deriving Repr, DecidableEq

/-- SUPPORTED_LANGUAGES from translation-service/server.js. -/
def SUPPORTED_LANGUAGES : List LanguageEntry :=
  [⟨"en", "English"⟩, ⟨"es", "Spanish"⟩, ⟨"fr", "French"⟩,
   ⟨"de", "German"⟩, ⟨"ur", "Urdu"⟩]

/-- Response of the GetSupportedLanguages RPC. -/
structure LanguagesResponse where
  languages : List LanguageEntry
deriving Repr, DecidableEq

/-- handleGetSupportedLanguages from translation-service/server.js: ignores its
call argument and answers with the static list. -/
def handleGetSupportedLanguages (_call : Unit) : LanguagesResponse :=
  { languages := SUPPORTED_LANGUAGES }

/-- UTF-8 byte values of a string, embedding the Buffer.from call of
audio-service/server.js (Node encodes with UTF-8 by default). The encoder is
the character-level UTF-8 encoding of the core library. -/
def utf8Bytes (s : String) : List Nat :=
  s.data.flatMap fun c => (String.utf8EncodeChar c).map fun b => b.toNat

/-- The header template string of generateTranslatedAudio in
audio-service/server.js. -/
def audioHeader (sourceLang targetLang : String) : String :=
  "TRANSLATED_AUDIO:" ++ sourceLang ++ "->" ++ targetLang ++ "|"

/-- The header bytes, Buffer.from of the header template. -/
def headerBytes (sourceLang targetLang : String) : List Nat :=
  utf8Bytes (audioHeader sourceLang targetLang)

/-- One byte of the synthetic waveform of generateTranslatedAudio: the JS
expression is Math.floor of 128 plus 127 times Math.sin of i times 0.01.
Real.sin models the IEEE double sine; the value lies in the interval from 1 to
255, so the byte store never wraps. -/
noncomputable def waveByte (i : Nat) : Nat :=
  (Int.floor ((128 : ℝ) + 127 * Real.sin ((i : ℝ) * (1 / 100)))).toNat

/-- Result record of generateTranslatedAudio, without the wall-clock
processingTime field. -/
structure AudioResult where
  translatedAudioData : List Nat
  originalSize : Nat
  processedSize : Nat

/-- generateTranslatedAudio from audio-service/server.js (the function name in
the source ends in Audio; the Data suffix is added here): header bytes followed
by a synthetic waveform of length the maximum of the input length and 1024. -/
noncomputable def generateTranslatedAudioData (originalAudioData : List Nat)
    (sourceLang targetLang : String) : AudioResult :=
  let header := headerBytes sourceLang targetLang
  let dummyAudioSize := max originalAudioData.length 1024
  let dummyAudioBytes := (List.range dummyAudioSize).map waveByte
  let result := header ++ dummyAudioBytes
  { translatedAudioData := result
    originalSize := originalAudioData.length
    processedSize := result.length }

/-- A ProcessAudio gRPC request, fields as in audio.proto. -/
structure AudioRequest where
  user_id : String
  audio_data : List Nat
  audio_format : String
  source_language : String
  target_language : String
  sample_rate : Nat
  channels : Nat

/-- A ProcessAudio gRPC response, fields as in handleProcessAudio of
audio-service/server.js (translated_audio in the source; the wall-clock
processing_time_ms field is omitted). -/
structure AudioResponse where
  translated_audio_data : List Nat
  audio_format : String
  source_language : String
  target_language : String
  success : Bool
  error_message : String
  original_size : Nat
  processed_size : Nat

/-- The body of handleProcessAudio, parameterised over the possibly-throwing
audio computation: the try branch builds the success response (with the
audio_format falling back to wav when the request field is empty, as the JS
or-default does), the catch branch builds a success=false response with an
empty buffer and the thrown message. -/
def handleProcessAudioWith (request : AudioRequest)
    (run : AudioRequest → Except String AudioResult) : AudioResponse :=
  match run request with
  | Except.ok r =>
    { translated_audio_data := r.translatedAudioData
      audio_format := if request.audio_format = "" then "wav" else request.audio_format
      source_language := request.source_language
      target_language := request.target_language
      success := true
      error_message := ""
      original_size := r.originalSize
      processed_size := r.processedSize }
  | Except.error msg =>
    { translated_audio_data := []
      audio_format := request.audio_format
      source_language := request.source_language
      target_language := request.target_language
      success := false
      error_message := msg
      original_size := request.audio_data.length
      processed_size := 0 }

/-- handleProcessAudio from audio-service/server.js: the audio computation is
generateTranslatedAudioData, which is total. -/
noncomputable def handleProcessAudioReq (request : AudioRequest) : AudioResponse :=
  handleProcessAudioWith request
    (fun r => Except.ok (generateTranslatedAudioData r.audio_data r.source_language r.target_language))

/-- The base64 alphabet string of the custom btoa in client/src/services/api.js,
with the padding character in position 64. -/
def base64Chars : String :=
  "ABCDEFGHIJKLMNOPQRSTUVWXYZabcdefghijklmnopqrstuvwxyz0123456789+/="

/-- JS string indexing into the alphabet: a one-character string inside the
bounds, and the string rendering of undefined beyond them (the JS append of an
out-of-range index concatenates the text undefined). -/
def charAt (i : Nat) : String :=
  match base64Chars.data.get? i with
  | some c => String.singleton c
  | none => "undefined"

/-- One iteration of the btoa loop of client/src/services/api.js: a is the
charCode at i, b and c are the possibly-missing charCodes at i+1 and i+2 (JS
charCodeAt past the end yields NaN; in the bitwise expressions NaN converts to
0, and the isNaN tests select the padding index 64). -/
def encodeGroup (a : Nat) (b c : Option Nat) : String :=
  let index1 := a >>> 2
  let index2 := ((a &&& 3) <<< 4) ||| ((b.getD 0) >>> 4)
  let index3 := match b with
    | none => 64
    | some bv => ((bv &&& 15) <<< 2) ||| ((c.getD 0) >>> 6)
  let index4 := match c with
    | none => 64
    | some cv => cv &&& 63
  charAt index1 ++ charAt index2 ++ charAt index3 ++ charAt index4

/-- The custom btoa of client/src/services/api.js over the charCodes of its
input string: the loop advances three codes at a time, emitting four alphabet
characters per iteration. -/
def btoa : List Nat → String
  | [] => ""
  | [a] => encodeGroup a none none
  | [a, b] => encodeGroup a (some b) none
  | a :: b :: c :: rest => encodeGroup a (some b) (some c) ++ btoa rest

/-- A sample TranslateText request used by witnesses. -/
def sampleTextReq : TranslateRequest :=
  { user_id := "u1", text := "hello", source_language := "en",
    target_language := "es", timestamp := 0 }

/-- A sample ProcessAudio request used by witnesses. -/
def sampleAudioReq : AudioRequest :=
  { user_id := "u1", audio_data := [1, 2, 3], audio_format := "wav",
    source_language := "en", target_language := "es",
    sample_rate := 44100, channels := 2 }

/-- UTF-8 encoding distributes over string append. -/
theorem utf8Bytes_append (a b : String) :
    utf8Bytes (a ++ b) = utf8Bytes a ++ utf8Bytes b := by
  simp [utf8Bytes]

/-- The audio header bytes always include the seventeen bytes of the
TRANSLATED_AUDIO: template, so the header is never empty. -/
theorem headerBytes_length_pos (s t : String) : 0 < (headerBytes s t).length := by
  have h17 : (utf8Bytes "TRANSLATED_AUDIO:").length = 17 := by decide
  simp only [headerBytes, audioHeader, utf8Bytes_append, List.length_append]
  omega

/-- The alphabet lookup yields a single character for every index up to the
padding position 64. -/
theorem charAt_length (i : Nat) (h : i ≤ 64) : (charAt i).length = 1 := by
  have hall : ∀ j < 65, (charAt j).length = 1 := by decide
  exact hall i (by omega)

/-- Every loop iteration of btoa on byte-valued codes emits exactly four
characters (the padding character included). -/
theorem encodeGroup_length (a : Nat) (b c : Option Nat) (ha : a < 256)
    (hb : b.getD 0 < 256) (hc : c.getD 0 < 256) :
    (encodeGroup a b c).length = 4 := by
  have hand3 : a &&& 3 ≤ 3 := Nat.and_le_right
  have h1 : a >>> 2 ≤ 64 := by
    rw [Nat.shiftRight_eq_div_pow]
    omega
  have h2 : ((a &&& 3) <<< 4) ||| (b.getD 0 >>> 4) ≤ 64 := by
    have hx : (a &&& 3) <<< 4 < 2 ^ 6 := by
      rw [Nat.shiftLeft_eq]
      norm_num
      omega
    have hy : b.getD 0 >>> 4 < 2 ^ 6 := by
      rw [Nat.shiftRight_eq_div_pow]
      norm_num
      omega
    have := Nat.or_lt_two_pow hx hy
    norm_num at this
    omega
  have h3 : (match b with
      | none => 64
      | some bv => ((bv &&& 15) <<< 2) ||| ((c.getD 0) >>> 6)) ≤ 64 := by
    cases b with
    | none => simp
    | some bv =>
      have hand15 : bv &&& 15 ≤ 15 := Nat.and_le_right
      have hx : (bv &&& 15) <<< 2 < 2 ^ 6 := by
        rw [Nat.shiftLeft_eq]
        norm_num
        omega
      have hy : c.getD 0 >>> 6 < 2 ^ 6 := by
        rw [Nat.shiftRight_eq_div_pow]
        norm_num
        omega
      have := Nat.or_lt_two_pow hx hy
      norm_num at this
      simp only []
      omega
  have h4 : (match c with
      | none => 64
      | some cv => cv &&& 63) ≤ 64 := by
    cases c with
    | none => simp
    | some cv =>
      have : cv &&& 63 ≤ 63 := Nat.and_le_right
      simp only []
      omega
  simp only [encodeGroup, String.length_append]
  rw [charAt_length _ h1, charAt_length _ h2, charAt_length _ h3, charAt_length _ h4]

/-- C1: for a Translate request with distinct source and target languages whose
normalised (lowercased, trimmed) text is not an exact dictionary key, the
result is the space-joined word-by-word mapping of the normalised text, words
absent from the dictionary passing through unchanged; and when that
word-by-word result equals the normalised input, the result is instead the
original text behind the marker of the uppercased target code. -/
theorem translateText_word_by_word (text s t : String) (hne : s ≠ t)
    (hmiss : lookupEntry (TRANSLATIONS (s ++ "-" ++ t)) (jsTrim (jsToLower text)) = none) :
    translateText text s t =
      (if joinSpace ((jsSplitSpace (jsTrim (jsToLower text))).map
            (fun word => (lookupEntry (TRANSLATIONS (s ++ "-" ++ t)) word).getD word))
          = jsTrim (jsToLower text)
       then "[" ++ jsToUpper t ++ "] " ++ text
       else joinSpace ((jsSplitSpace (jsTrim (jsToLower text))).map
            (fun word => (lookupEntry (TRANSLATIONS (s ++ "-" ++ t)) word).getD word))) := by
  simp [translateText, hne, hmiss]

/-- C1 witness: the word-by-word branch evaluated on the phrase hello world
from en to es. -/
theorem translateText_word_by_word_witness :
    ("en" : String) ≠ "es"
    ∧ lookupEntry (TRANSLATIONS ("en" ++ "-" ++ "es")) (jsTrim (jsToLower "hello world")) = none
    ∧ translateText "hello world" "en" "es" =
        (if joinSpace ((jsSplitSpace (jsTrim (jsToLower "hello world"))).map
              (fun word => (lookupEntry (TRANSLATIONS ("en" ++ "-" ++ "es")) word).getD word))
            = jsTrim (jsToLower "hello world")
         then "[" ++ jsToUpper "es" ++ "] " ++ "hello world"
         else joinSpace ((jsSplitSpace (jsTrim (jsToLower "hello world"))).map
              (fun word => (lookupEntry (TRANSLATIONS ("en" ++ "-" ++ "es")) word).getD word))) :=
  ⟨by decide, by decide,
   translateText_word_by_word "hello world" "en" "es" (by decide) (by decide)⟩

/-- C2 counterexample: the phrase hello world from en to es has no exact
dictionary entry, yet the result is the word-by-word value hola world, not the
marker form behind the uppercased target code. -/
theorem translateText_marker_cex :
    ("en" : String) ≠ "es"
    ∧ lookupEntry (TRANSLATIONS ("en" ++ "-" ++ "es")) (jsTrim (jsToLower "hello world")) = none
    ∧ translateText "hello world" "en" "es" = "hola world"
    ∧ translateText "hello world" "en" "es" ≠ "[" ++ jsToUpper "es" ++ "] " ++ "hello world" :=
  ⟨by decide, by decide, by decide, by decide⟩

/-- C2 (amended): for a Translate request with distinct source and target
languages whose normalised text has no exact dictionary entry AND whose
word-by-word substitution leaves the normalised text unchanged, the result is
the original text behind the marker of the uppercased target code. -/
theorem translateText_marker (text s t : String) (hne : s ≠ t)
    (hmiss : lookupEntry (TRANSLATIONS (s ++ "-" ++ t)) (jsTrim (jsToLower text)) = none)
    (hww : joinSpace ((jsSplitSpace (jsTrim (jsToLower text))).map
        (fun word => (lookupEntry (TRANSLATIONS (s ++ "-" ++ t)) word).getD word))
        = jsTrim (jsToLower text)) :
    translateText text s t = "[" ++ jsToUpper t ++ "] " ++ text := by
  simp [translateText, hne, hmiss, hww]

/-- C2 witness: the untranslatable word zzz from en to es yields the marker
form. -/
theorem translateText_marker_witness :
    ("en" : String) ≠ "es"
    ∧ translateText "zzz" "en" "es" = "[" ++ jsToUpper "es" ++ "] " ++ "zzz" :=
  ⟨by decide, translateText_marker "zzz" "en" "es" (by decide) (by decide) (by decide)⟩

/-- C3: when the source language equals the target language the result is the
original text, with no normalisation, lookup or marker applied. -/
theorem translateText_same_language (text s t : String) (h : s = t) :
    translateText text s t = text := by
  simp [translateText, h]

/-- C3 witness: mixed-case text survives a same-language request unchanged. -/
theorem translateText_same_language_witness :
    ("en" : String) = "en" ∧ translateText " Hello " "en" "en" = " Hello " :=
  ⟨rfl, translateText_same_language " Hello " "en" "en" rfl⟩

/-- C4: for a Translate request with distinct source and target languages whose
normalised text is an exact dictionary key, the result is that dictionary
entry. -/
theorem translateText_exact_match (text s t v : String) (hne : s ≠ t)
    (hhit : lookupEntry (TRANSLATIONS (s ++ "-" ++ t)) (jsTrim (jsToLower text)) = some v) :
    translateText text s t = v := by
  simp [translateText, hne, hhit]

/-- C4 witness: hello from en to es is an exact dictionary key and yields
hola. -/
theorem translateText_exact_match_witness :
    lookupEntry (TRANSLATIONS ("en" ++ "-" ++ "es")) (jsTrim (jsToLower "hello")) = some "hola"
    ∧ translateText "hello" "en" "es" = "hola" :=
  ⟨by decide, translateText_exact_match "hello" "en" "es" "hola" (by decide) (by decide)⟩

/-- C6: both handlers are total functions into response records (never a bare
transport-level failure): when the wrapped computation returns, the response
has success true and an empty error message; when it throws, the response has
success false and the fault message as its error message. -/
theorem handlers_always_answer (reqT : TranslateRequest)
    (runT : TranslateRequest → Except String String)
    (reqA : AudioRequest) (runA : AudioRequest → Except String AudioResult) :
    (∀ v, runT reqT = Except.ok v →
        (handleTranslateTextWith reqT runT).success = true
        ∧ (handleTranslateTextWith reqT runT).error_message = "")
    ∧ (∀ m, runT reqT = Except.error m →
        (handleTranslateTextWith reqT runT).success = false
        ∧ (handleTranslateTextWith reqT runT).error_message = m)
    ∧ (∀ r, runA reqA = Except.ok r →
        (handleProcessAudioWith reqA runA).success = true
        ∧ (handleProcessAudioWith reqA runA).error_message = "")
    ∧ (∀ m, runA reqA = Except.error m →
        (handleProcessAudioWith reqA runA).success = false
        ∧ (handleProcessAudioWith reqA runA).error_message = m) := by
  refine ⟨?_, ?_, ?_, ?_⟩ <;> intro x h <;>
    simp [handleTranslateTextWith, handleProcessAudioWith, h]

/-- C6 witness: a throwing translate computation yields a success=false body
carrying the message, and the actual total computation yields success=true. -/
theorem handlers_always_answer_witness :
    (handleTranslateTextWith sampleTextReq (fun _ => Except.error "boom")).success = false
    ∧ (handleTranslateTextWith sampleTextReq (fun _ => Except.error "boom")).error_message = "boom"
    ∧ (handleTranslateText sampleTextReq).success = true
    ∧ (handleProcessAudioWith sampleAudioReq (fun _ => Except.error "down")).error_message = "down" := by
  have h1 := handlers_always_answer sampleTextReq (fun _ => Except.error "boom")
    sampleAudioReq (fun _ => Except.error "down")
  have h2 := handlers_always_answer sampleTextReq
    (fun r => Except.ok (translateText r.text r.source_language r.target_language))
    sampleAudioReq (fun _ => Except.error "down")
  exact ⟨(h1.2.1 "boom" rfl).1, (h1.2.1 "boom" rfl).2, (h2.1 _ rfl).1,
    (h1.2.2.2 "down" rfl).2⟩

/-- C8: the GetSupportedLanguages handler ignores its argument and returns the
fixed five-element ordered language list. -/
theorem getSupportedLanguages_static (c : Unit) :
    handleGetSupportedLanguages c =
      { languages := [⟨"en", "English"⟩, ⟨"es", "Spanish"⟩, ⟨"fr", "French"⟩,
                      ⟨"de", "German"⟩, ⟨"ur", "Urdu"⟩] } := rfl

/-- C9: the batch handler returns one response per request in input order, and
the translated text of the i-th response equals the translated text the single
TranslateText handler produces on the i-th request. -/
theorem translateBatch_pointwise (requests : List TranslateRequest) (i : Nat) :
    (handleTranslateBatch requests).length = requests.length
    ∧ ((handleTranslateBatch requests)[i]?).map TranslateResponse.translated_text
        = (requests[i]?).map (fun r => (handleTranslateText r).translated_text) := by
  constructor
  · simp [handleTranslateBatch]
  · simp only [handleTranslateBatch, List.getElem?_map, Option.map_map]
    cases requests[i]? <;> rfl

/-- C5: the processed audio returned by the ProcessAudio handler has size equal
to the header length plus the maximum of the input size and the 1024-byte
floor (both in the processed_size field and as the actual byte count), and the
output bytes are a deterministic function of the request: they depend only on
the languages and the input length, so the same input always produces the same
output. -/
theorem processAudio_size_deterministic (req : AudioRequest) :
    (handleProcessAudioReq req).processed_size
        = (headerBytes req.source_language req.target_language).length
          + max req.audio_data.length 1024
    ∧ (handleProcessAudioReq req).translated_audio_data.length
        = (headerBytes req.source_language req.target_language).length
          + max req.audio_data.length 1024
    ∧ ∀ req2 : AudioRequest,
        req2.audio_data.length = req.audio_data.length →
        req2.source_language = req.source_language →
        req2.target_language = req.target_language →
        (handleProcessAudioReq req2).translated_audio_data
          = (handleProcessAudioReq req).translated_audio_data := by
  refine ⟨?_, ?_, fun req2 hlen hs ht => ?_⟩
  · simp [handleProcessAudioReq, handleProcessAudioWith, generateTranslatedAudioData]
  · simp [handleProcessAudioReq, handleProcessAudioWith, generateTranslatedAudioData]
  · simp [handleProcessAudioReq, handleProcessAudioWith,
      generateTranslatedAudioData, hlen, hs, ht]

/-- C5 witness: on the three-byte sample request from en to es the processed
size is the 24 header bytes plus the 1024-byte floor. -/
theorem processAudio_size_deterministic_witness :
    (handleProcessAudioReq sampleAudioReq).processed_size = 1048 := by
  have h := (processAudio_size_deterministic sampleAudioReq).1
  rw [h]
  decide

/-- C10: every successful ProcessAudio result strictly exceeds its input in
size, is at least the header length plus 1024 bytes even for empty input, and
its byte content begins with the header bytes of the source and target
languages. -/
theorem processAudio_growth (req : AudioRequest) :
    req.audio_data.length < (handleProcessAudioReq req).processed_size
    ∧ (headerBytes req.source_language req.target_language).length + 1024
        ≤ (handleProcessAudioReq req).processed_size
    ∧ (handleProcessAudioReq req).translated_audio_data.take
          (headerBytes req.source_language req.target_language).length
        = headerBytes req.source_language req.target_language := by
  have hpos := headerBytes_length_pos req.source_language req.target_language
  have hmax1 := Nat.le_max_left req.audio_data.length 1024
  have hmax2 := Nat.le_max_right req.audio_data.length 1024
  refine ⟨?_, ?_, ?_⟩
  · simp only [handleProcessAudioReq, handleProcessAudioWith,
      generateTranslatedAudioData, List.length_append, List.length_map,
      List.length_range]
    omega
  · simp only [handleProcessAudioReq, handleProcessAudioWith,
      generateTranslatedAudioData, List.length_append, List.length_map,
      List.length_range]
    omega
  · simp only [handleProcessAudioReq, handleProcessAudioWith,
      generateTranslatedAudioData]
    exact List.take_left _ _

/-- The btoa output length on any list of byte values, by induction over the
three-byte loop groups. -/
theorem btoa_length_all (l : List Nat) (hbytes : ∀ x ∈ l, x < 256) :
    (btoa l).length = 4 * ((l.length + 2) / 3) := by
  induction l using btoa.induct with
  | case1 => rfl
  | case2 a =>
    have ha : a < 256 := hbytes a (by simp)
    simp [btoa, encodeGroup_length a none none ha (by simp) (by simp)]
  | case3 a b =>
    have ha : a < 256 := hbytes a (by simp)
    have hb : b < 256 := hbytes b (by simp)
    simp [btoa, encodeGroup_length a (some b) none ha (by simpa) (by simp)]
  | case4 a b c rest ih =>
    have ha : a < 256 := hbytes a (by simp)
    have hb : b < 256 := hbytes b (by simp)
    have hc : c < 256 := hbytes c (by simp)
    have hrest : ∀ x ∈ rest, x < 256 := fun x hx => hbytes x (by simp [hx])
    have hgrp := encodeGroup_length a (some b) (some c) ha (by simpa) (by simpa)
    simp only [btoa, String.length_append, hgrp, ih hrest, List.length_cons]
    omega

/-- C7: on a non-empty list of byte values (each below 256, as produced by the
char codes of a binary string) the custom btoa emits exactly four characters
per three input bytes, the final group padded: the output length is four times
the ceiling of a third of the input length. -/
theorem btoa_length_ratio (l : List Nat) (hbytes : ∀ x ∈ l, x < 256)
    (_hne : l ≠ []) :
    (btoa l).length = 4 * ((l.length + 2) / 3) :=
  btoa_length_all l hbytes

/-- C7 witness: the two-byte input with values 104 and 105 encodes to a
four-character output, four times the ceiling of two thirds. -/
theorem btoa_length_ratio_witness :
    (∀ x ∈ ([104, 105] : List Nat), x < 256)
    ∧ ([104, 105] : List Nat) ≠ []
    ∧ (btoa [104, 105]).length = 4 * ((([104, 105] : List Nat).length + 2) / 3) :=
  ⟨by decide, by decide, btoa_length_ratio [104, 105] (by decide) (by decide)⟩

example : btoa [104, 105] = "aGk=" := by decide
example : btoa [104, 105, 33] = "aGkh" := by decide
example : btoa [77] = "TQ==" := by decide
